import Mathlib

set_option maxRecDepth 40000

/-!
# Verification of the model-validator archive pipeline

Shallow embedding of `src/main.py` (FastAPI service validating an uploaded
ZIP of ML-model code).  External effects — the MIME guess of
`mimetypes.guess_type`, the result of reading a file from disk, the outcome
of the HTTP call to the LLM backend, and the outcome of `shutil.rmtree` —
are modelled as explicit inputs; the control flow of the Python functions is
translated branch for branch.

Python string primitives (`startswith`, `endswith`, slicing, `len`, the
`in` operator) work on code points, so they are modelled on `List Char`
via `String.toList`.
-/

namespace ModelValidator

/-- Python `s.startswith(p)`. -/
def pyStartsWith (s p : String) : Bool := p.toList.isPrefixOf s.toList

/-- Python `s.endswith(p)`. -/
def pyEndsWith (s p : String) : Bool := p.toList.reverse.isPrefixOf s.toList.reverse

/-- Python `s[:n]` (first `n` code points). -/
def pyTake (s : String) (n : Nat) : String := String.mk (s.toList.take n)

/-- Python `len(s)` (number of code points). -/
def pyLen (s : String) : Nat := s.toList.length

/-- Whether `needle` occurs as a contiguous sublist of `hay`. -/
def subChars (needle : List Char) : List Char → Bool
  | [] => needle.isEmpty
  | c :: cs => needle.isPrefixOf (c :: cs) || subChars needle cs

/-- Python `needle in hay` for strings. -/
def pyContains (hay needle : String) : Bool := subChars needle.toList hay.toList

/-- Outcome of the single `httpx` POST inside `get_ai_analysis`
(`src/main.py` lines 82-96): either a response with a status code together
with the result of extracting `result['choices'][0]['message']['content']`
(`Except.error` = that extraction raised, e.g. JSON decode or `KeyError`),
or an exception during transport carrying its message. -/
inductive BackendOutcome where
  | response (status : Nat) (parse : Except String String)
  | transportError (msg : String)
deriving Repr

/-- Body of the `try:` block of `get_ai_analysis` (lines 41-93), as a
fallible computation: `.error` means an exception escaped to the
`except Exception` handler. -/
def get_ai_analysis_try : BackendOutcome → Except String String
  | .transportError e => .error e
  | .response status parse =>
      if status == 200 then parse
      else .ok ("Error: API returned status code " ++ toString status)

/-- `get_ai_analysis` (`src/main.py` lines 40-96): the `try` body with the
`except Exception as e: return f"Error in AI analysis: {str(e)}"` handler
around it. -/
def get_ai_analysis (o : BackendOutcome) : String :=
  match get_ai_analysis_try o with
  | .ok s => s
  | .error e => "Error in AI analysis: " ++ e

/-- A file materialised in the scratch workspace, as the pipeline observes
it: its base name (`os.path.basename`), its size (`os.path.getsize`), the
MIME type that `mimetypes.guess_type` infers from its name (`none` when
inference yields nothing), and the result of `open(...).read()` with UTF-8
decoding (`Except.error` = the read raised, carrying the message). -/
structure ExtractedFile where
  baseName : String
  size : Nat
  mimeGuess : Option String
  readResult : Except String String
deriving Repr

/-- The dictionary returned by `analyze_file_content`: either the full
record `{file_name, file_type, file_size, content, ai_analysis}` or the
error record `{file_name, error}` built in its `except` clause. -/
inductive FileRecord where
  | ok (file_name file_type file_size content ai_analysis : String)
  | err (file_name error : String)
deriving DecidableEq, Repr

/-- The `content` entry of a record (`none` for the error record, which has
no such key: Python's `'content' in analysis` is false exactly then). -/
def FileRecord.contentField : FileRecord → Option String
  | .ok _ _ _ c _ => some c
  | .err _ _ => none

/-- The `ai_analysis` entry of a record (`none` for the error record). -/
def FileRecord.aiField : FileRecord → Option String
  | .ok _ _ _ _ a => some a
  | .err _ _ => none

/-- The stored preview of line 141:
`content[:1000] + "..." if len(content) > 1000 else content`. -/
def preview (content : String) : String :=
  if pyLen content > 1000 then pyTake content 1000 ++ "..." else content

/-- `analyze_file_content` (`src/main.py` lines 102-148) for one file.
`ai` maps the `content` argument of a `get_ai_analysis` call to the string
it returns (the other two arguments, description and setup, are fixed per
request).  The `except` clause of lines 144-148 catches exactly the read
failure of line 127-128, the only statement in the body that can raise
(`get_ai_analysis` never raises, see theorems below). -/
def analyze_file_content (ai : String → String) (f : ExtractedFile) : FileRecord :=
  if pyStartsWith f.baseName "._" then
    .ok f.baseName "hidden" (toString f.size ++ " bytes") "Hidden system file" ""
  else
    let file_type := f.mimeGuess.getD "unknown"
    if pyStartsWith file_type "text/" then
      match f.readResult with
      | .error e => .err f.baseName ("Error analyzing file: " ++ e)
      | .ok content =>
          let ai_analysis :=
            if file_type == "text/x-python" || file_type == "text/plain"
            then ai content else ""
          .ok f.baseName file_type (toString f.size ++ " bytes") (preview content) ai_analysis
    else if pyStartsWith file_type "image/" then
      .ok f.baseName file_type (toString f.size ++ " bytes") "Binary image file" ""
    else
      .ok f.baseName file_type (toString f.size ++ " bytes") "Binary file" ""

/-- Whether `analyze_file_content` reaches the `get_ai_analysis` call of
line 131 for this file: not hidden, `file_type.startswith('text/')`, the
read of line 127-128 did not raise, and the inferred type is exactly
`text/x-python` or `text/plain`. -/
def per_file_analysis_called (f : ExtractedFile) : Bool :=
  !pyStartsWith f.baseName "._"
  && pyStartsWith (f.mimeGuess.getD "unknown") "text/"
  && (match f.readResult with | .ok _ => true | .error _ => false)
  && ((f.mimeGuess.getD "unknown") == "text/x-python"
      || (f.mimeGuess.getD "unknown") == "text/plain")

/-- Whether `analyze_file_content` opens the file for reading (line 127):
only the `text/` branch does, and hidden files never reach it. -/
def file_opened (f : ExtractedFile) : Bool :=
  !pyStartsWith f.baseName "._" && pyStartsWith (f.mimeGuess.getD "unknown") "text/"

/-! ## The `process_zip_file` pipeline (`src/main.py` lines 150-228)

The single `os.walk` loop of lines 183-193 carries three accumulators
(`file_analyses`, `has_python_files`, `all_python_content`); each iteration
updates them independently, so the loop is embedded as three structural
recursions over the traversal-ordered file list. -/

/-- The `file_analyses` accumulator (lines 179, 187): one record per file,
in traversal order. -/
def file_analyses (ai : String → String) : List ExtractedFile → List FileRecord
  | [] => []
  | f :: fs => analyze_file_content ai f :: file_analyses ai fs

/-- The `has_python_files` accumulator (lines 180, 190-191): set exactly
when some file name ends in `.py`. -/
def has_python_files : List ExtractedFile → Bool
  | [] => false
  | f :: fs => pyEndsWith f.baseName ".py" || has_python_files fs

/-- The `all_python_content` accumulator (lines 181, 192-193): for each
file ending in `.py` whose record has a `content` key, that record's
`content` value, in traversal order. -/
def all_python_content (ai : String → String) : List ExtractedFile → List String
  | [] => []
  | f :: fs =>
      if pyEndsWith f.baseName ".py" then
        match (analyze_file_content ai f).contentField with
        | some c => c :: all_python_content ai fs
        | none => all_python_content ai fs
      else all_python_content ai fs

/-- The reject marker searched for at line 207. -/
def reject_marker : String := "❌ REJECT"

/-- The `combined_content` of line 203 passed to the aggregate
`get_ai_analysis` call, when that call happens (`none` when
`all_python_content` is empty and line 204 is never reached). -/
def aggregate_prompt (ai : String → String) (files : List ExtractedFile) : Option String :=
  if (all_python_content ai files).isEmpty then none
  else some (String.intercalate "\n\n" (all_python_content ai files))

/-- The `ai_analysis` variable at line 217 after lines 201-204: `None`
unless `all_python_content` is non-empty, in which case the aggregate
analysis of the combined content. -/
def ai_analysis_result (ai : String → String) (files : List ExtractedFile) : Option String :=
  (aggregate_prompt ai files).map ai

/-- The `validation_message` list after lines 195-209: the
no-Python-files message when `has_python_files` is falsy, then the
placeholder message when the aggregate analysis ran and contains the
reject marker. -/
def validation_message (ai : String → String) (files : List ExtractedFile) : List String :=
  let base := if has_python_files files then [] else ["No Python files found in the ZIP"]
  match ai_analysis_result ai files with
  | none => base
  | some analysis =>
      if pyContains analysis reject_marker
      then base ++ ["Code appears to be a placeholder or test code"]
      else base

/-- The JSON body returned by `process_zip_file` (lines 156-162 and
217-222). -/
structure Response where
  isValid : Bool
  message : String
  files_analyzed : List FileRecord
  ai_analysis : Option String
deriving DecidableEq, Repr

/-- Lines 195-222: the response built from the extracted files (the body of
the `try` block after extraction succeeded, up to but excluding the
`shutil.rmtree` of line 215). -/
def build_response (ai : String → String) (files : List ExtractedFile) : Response :=
  let msgs := validation_message ai files
  let is_valid := has_python_files files && msgs.isEmpty
  { isValid := is_valid
  , message :=
      if is_valid then "Validation successful"
      else "Validation failed: " ++ String.intercalate "; " msgs
  , files_analyzed := file_analyses ai files
  , ai_analysis := ai_analysis_result ai files }

/-- Outcome of lines 169-176 (`await file.read()`, `io.BytesIO`,
`zipfile.ZipFile`, `extractall`): either the traversal-ordered list of
extracted files, or an exception (e.g. `zipfile.BadZipFile` for bytes that
are not a valid archive) carrying its message. -/
inductive ExtractOutcome where
  | ok (files : List ExtractedFile)
  | fail (msg : String)
deriving Repr

/-- One inbound request to `process_zip_file`, with every external effect
pre-resolved: the declared upload name, the extraction outcome, the
outcomes of the `shutil.rmtree` calls at line 215 (`rmtree1`) and line 227
(`rmtree2`), and the backend oracle `ai` (content argument ↦ returned
string) used for all `get_ai_analysis` calls. -/
structure RequestEnv where
  filename : String
  extraction : ExtractOutcome
  rmtree1 : Except String Unit
  rmtree2 : Except String Unit
  ai : String → String

/-- How one request terminates at the transport boundary: a normal JSON
reply, a raised `HTTPException` (status, detail), or an exception that
escaped even the `except` handler. -/
inductive PipelineResult where
  | reply (r : Response)
  | httpError (status : Nat) (detail : String)
  | crash (msg : String)
deriving DecidableEq, Repr

/-- Result of one request plus the fate of the scratch workspace:
`workspaceCreated` — `tempfile.mkdtemp` at line 165 ran;
`workspaceDeleted` — the directory is absent when the request terminates
(a failed `rmtree` is modelled as leaving the directory in place, so the
`os.path.exists` check of line 226 finds it). -/
structure RunOutcome where
  result : PipelineResult
  workspaceCreated : Bool
  workspaceDeleted : Bool
deriving Repr

/-- `process_zip_file` (`src/main.py` lines 150-228), branch for branch:
the `.zip` extension gate of line 156; `mkdtemp`; the `try` block
(extraction, the per-file loop, validation, the line-215 `rmtree`, the
return); and the `except Exception` handler of lines 224-228 (second
`rmtree` guarded by `os.path.exists`, then `raise HTTPException(500, str(e))`;
an exception in that second `rmtree` propagates out of the handler). -/
def process_zip_file (env : RequestEnv) : RunOutcome :=
  if !pyEndsWith env.filename ".zip" then
    { result := .reply
        { isValid := false
        , message := "File must be a ZIP file"
        , files_analyzed := []
        , ai_analysis := none }
    , workspaceCreated := false
    , workspaceDeleted := false }
  else
    match env.extraction with
    | .fail e =>
        match env.rmtree2 with
        | .ok _ =>
            { result := .httpError 500 e
            , workspaceCreated := true, workspaceDeleted := true }
        | .error e2 =>
            { result := .crash e2
            , workspaceCreated := true, workspaceDeleted := false }
    | .ok files =>
        match env.rmtree1 with
        | .ok _ =>
            { result := .reply (build_response env.ai files)
            , workspaceCreated := true, workspaceDeleted := true }
        | .error e =>
            match env.rmtree2 with
            | .ok _ =>
                { result := .httpError 500 e
                , workspaceCreated := true, workspaceDeleted := true }
            | .error e2 =>
                { result := .crash e2
                , workspaceCreated := true, workspaceDeleted := false }

/-! ## Concrete inputs used by witnesses and counterexamples -/

/-- A backend oracle returning the empty string for every prompt. -/
def aiZero : String → String := fun _ => ""

/-- An ordinary qualifying Python source file. -/
def pyFile : ExtractedFile := ⟨"train.py", 20, some "text/x-python", Except.ok "print(1)"⟩

/-- A resource-fork shadow file whose name nevertheless ends in `.py`. -/
def hidFile : ExtractedFile := ⟨"._model.py", 10, some "text/x-python", Except.ok "junk"⟩

/-- A markdown file: text kind, but not `text/x-python` or `text/plain`. -/
def mdFile : ExtractedFile := ⟨"README.md", 5, some "text/markdown", Except.ok "# hi"⟩

/-- An image file; the pipeline never opens it, so its read outcome is
irrelevant. -/
def pngFile : ExtractedFile := ⟨"logo.png", 7, some "image/png", Except.error "ignored"⟩

/-- A qualifying `.py` file whose UTF-8 read raises. -/
def badPy : ExtractedFile := ⟨"bad.py", 9, some "text/x-python", Except.error "decode fail"⟩

/-- A 1001-character content string, one character past the preview cut. -/
def longContent : String := String.mk (List.replicate 1001 'a')

/-- A qualifying Python file with 1001 characters of content. -/
def longPy : ExtractedFile := ⟨"big.py", 1001, some "text/x-python", Except.ok longContent⟩

/-- A backend oracle that always answers with the reject marker. -/
def aiRej : String → String := fun _ => "Analysis ❌ REJECT"

/-- A request whose upload name ends in `.zip` but whose bytes are not a
valid archive (`zipfile.BadZipFile` message), with cleanup succeeding. -/
def envBadZip : RequestEnv :=
  ⟨"model.zip", .fail "File is not a zip file", Except.ok (), Except.ok (), aiZero⟩

/-- A request that extracts an empty archive and whose line-215 `rmtree`
fails, with the line-227 `rmtree` succeeding. -/
def envRmFail : RequestEnv :=
  ⟨"model.zip", .ok [], Except.error "Device or resource busy", Except.ok (), aiZero⟩

/-- A request that extracts an empty archive with all cleanup succeeding. -/
def envOkEmpty : RequestEnv :=
  ⟨"model.zip", .ok [], Except.ok (), Except.ok (), aiZero⟩

/-! ## Shared helper lemmas -/

/-- When no file name ends in `.py`, the `all_python_content` accumulator
stays empty. -/
lemma all_python_content_eq_nil_of_no_py (ai : String → String) :
    ∀ files : List ExtractedFile, has_python_files files = false →
      all_python_content ai files = [] := by
  intro files h
  induction files with
  | nil => rfl
  | cons f fs ih =>
      simp only [has_python_files, Bool.or_eq_false_iff] at h
      simp [all_python_content, h.1, ih h.2]

/-- When every `.py` file's record lacks a `content` key, the
`all_python_content` accumulator stays empty. -/
lemma all_python_content_eq_nil_of_err (ai : String → String) :
    ∀ files : List ExtractedFile,
      (∀ f ∈ files, pyEndsWith f.baseName ".py" = true →
        (analyze_file_content ai f).contentField = none) →
      all_python_content ai files = [] := by
  intro files h
  induction files with
  | nil => rfl
  | cons f fs ih =>
      simp only [all_python_content]
      by_cases hpy : pyEndsWith f.baseName ".py" = true
      · rw [if_pos hpy, h f (List.mem_cons_self f fs) hpy]
        exact ih fun g hg hgpy => h g (List.mem_cons_of_mem f hg) hgpy
      · rw [if_neg hpy]
        exact ih fun g hg hgpy => h g (List.mem_cons_of_mem f hg) hgpy

/-! ## Claims -/

/-- **C5.** `get_ai_analysis` never raises and always returns a string:
the backend's raw parsed text when the status is 200 and parsing succeeds;
a synthesized string embedding the status code on a non-200 status; and a
synthesized string embedding the exception message on a transport exception
or a parse failure. -/
theorem C5_analysis_client_total (o : BackendOutcome) :
    (∀ t, o = .response 200 (Except.ok t) → get_ai_analysis o = t) ∧
    (∀ st p, o = .response st p → st ≠ 200 →
      get_ai_analysis o = "Error: API returned status code " ++ toString st) ∧
    (∀ e, o = .response 200 (Except.error e) →
      get_ai_analysis o = "Error in AI analysis: " ++ e) ∧
    (∀ e, o = .transportError e →
      get_ai_analysis o = "Error in AI analysis: " ++ e) := by
  refine ⟨?_, ?_, ?_, ?_⟩
  · rintro t rfl; rfl
  · rintro st p rfl hne
    simp [get_ai_analysis, get_ai_analysis_try, hne]
  · rintro e rfl; rfl
  · rintro e rfl; rfl

/-- Witness for C5 at a concrete transport failure. -/
theorem C5_analysis_client_total_witness :
    get_ai_analysis (.transportError "timeout") = "Error in AI analysis: timeout" :=
  (C5_analysis_client_total (.transportError "timeout")).2.2.2 "timeout" rfl

/-- **C4.** For every request passing the `.zip` extension gate, provided
the deletion calls themselves succeed, the scratch workspace is created and
is gone when the request terminates — on the normal path, on structured
validation failure (both go through line 215) and on every exception path
(line 227). -/
theorem C4_workspace_always_deleted (env : RequestEnv)
    (hzip : pyEndsWith env.filename ".zip" = true)
    (h1 : env.rmtree1 = Except.ok ())
    (h2 : env.rmtree2 = Except.ok ()) :
    (process_zip_file env).workspaceCreated = true ∧
    (process_zip_file env).workspaceDeleted = true := by
  unfold process_zip_file
  rw [hzip]
  cases hx : env.extraction with
  | fail e => simp [h2]
  | ok files => simp [h1]

/-- Witness for C4 at a concrete request. -/
theorem C4_workspace_always_deleted_witness :
    (process_zip_file envOkEmpty).workspaceCreated = true ∧
    (process_zip_file envOkEmpty).workspaceDeleted = true :=
  C4_workspace_always_deleted envOkEmpty (by decide) rfl rfl

/-- **C3 counterexample.** A request whose name ends in `.zip` but whose
bytes cannot be opened as an archive yields a raised HTTP 500 server error
carrying the exception detail — not a `.reply` with `isValid = false` as
the claim states. -/
theorem C3_counterexample :
    (process_zip_file envBadZip).result = .httpError 500 "File is not a zip file" := by
  decide

/-- **C3 amended.** An invalid archive is not recovered locally: the
generic `except Exception` handler removes the workspace and re-raises the
failure as an HTTP 500 whose detail is the exception message; if the
cleanup in the handler itself fails, that exception escapes uncaught. -/
theorem C3_invalid_archive_is_500 (env : RequestEnv) (e : String)
    (hzip : pyEndsWith env.filename ".zip" = true)
    (hx : env.extraction = .fail e) :
    (env.rmtree2 = Except.ok () →
      (process_zip_file env).result = .httpError 500 e ∧
      (process_zip_file env).workspaceDeleted = true) ∧
    (∀ e2, env.rmtree2 = Except.error e2 →
      (process_zip_file env).result = .crash e2 ∧
      (process_zip_file env).workspaceDeleted = false) := by
  constructor
  · intro h2
    unfold process_zip_file
    rw [hzip, hx, h2]
    exact ⟨rfl, rfl⟩
  · intro e2 h2
    unfold process_zip_file
    rw [hzip, hx, h2]
    exact ⟨rfl, rfl⟩

/-- Witness for the amended C3 at a concrete request. -/
theorem C3_invalid_archive_is_500_witness :
    (process_zip_file envBadZip).result = .httpError 500 "File is not a zip file" ∧
    (process_zip_file envBadZip).workspaceDeleted = true :=
  (C3_invalid_archive_is_500 envBadZip "File is not a zip file" (by decide) rfl).1 rfl

/-- **C9 counterexample.** A failure of the line-215 workspace deletion is
not swallowed: it is caught by the outer handler and surfaces to the caller
as an HTTP 500 carrying the deletion error's message. -/
theorem C9_counterexample :
    (process_zip_file envRmFail).result = .httpError 500 "Device or resource busy" := by
  decide

/-- **C9 amended.** A failure of the success-path workspace deletion is
caught by the generic handler, which attempts a second deletion and then
re-raises the original failure as an HTTP 500 with the deletion error's
message; if the second deletion also fails, that exception escapes
uncaught. Deletion failure is never silently swallowed. -/
theorem C9_cleanup_failure_is_500 (env : RequestEnv) (files : List ExtractedFile) (e : String)
    (hzip : pyEndsWith env.filename ".zip" = true)
    (hx : env.extraction = .ok files)
    (h1 : env.rmtree1 = Except.error e) :
    (env.rmtree2 = Except.ok () →
      (process_zip_file env).result = .httpError 500 e ∧
      (process_zip_file env).workspaceDeleted = true) ∧
    (∀ e2, env.rmtree2 = Except.error e2 →
      (process_zip_file env).result = .crash e2 ∧
      (process_zip_file env).workspaceDeleted = false) := by
  constructor
  · intro h2
    unfold process_zip_file
    rw [hzip, hx, h1, h2]
    exact ⟨rfl, rfl⟩
  · intro e2 h2
    unfold process_zip_file
    rw [hzip, hx, h1, h2]
    exact ⟨rfl, rfl⟩

/-- Witness for the amended C9 at a concrete request. -/
theorem C9_cleanup_failure_is_500_witness :
    (process_zip_file envRmFail).result = .httpError 500 "Device or resource busy" ∧
    (process_zip_file envRmFail).workspaceDeleted = true :=
  (C9_cleanup_failure_is_500 envRmFail [] "Device or resource busy"
    (by decide) rfl rfl).1 rfl

/-- **C6 counterexample.** For an archive whose only file is the hidden
`._model.py`, no per-file analysis is made, yet the aggregate call of line
204 IS triggered on that file's behalf: its placeholder content makes
`all_python_content` non-empty, so `combined_content` is exactly the
placeholder and one external `get_ai_analysis` call happens — refuting the
claim that a hidden file never triggers an analysis call via the aggregate
path. -/
theorem C6_counterexample :
    per_file_analysis_called hidFile = false ∧
    aggregate_prompt aiZero [hidFile] = some "Hidden system file" := by
  decide

/-- **C6 amended.** A hidden (`._`-prefixed) file never triggers the
per-file analysis call, is never opened, and its record carries the fixed
placeholder content with an empty analysis field; however, when its name
also ends in `.py`, the placeholder string joins the aggregate content, so
an aggregate analysis call can still be triggered on its behalf. -/
theorem C6_hidden_placeholder (ai : String → String) (f : ExtractedFile)
    (h : pyStartsWith f.baseName "._" = true) :
    per_file_analysis_called f = false ∧
    file_opened f = false ∧
    analyze_file_content ai f =
      .ok f.baseName "hidden" (toString f.size ++ " bytes") "Hidden system file" "" ∧
    (∀ fs, pyEndsWith f.baseName ".py" = true →
      all_python_content ai (f :: fs) =
        "Hidden system file" :: all_python_content ai fs) := by
  refine ⟨?_, ?_, ?_, ?_⟩
  · simp [per_file_analysis_called, h]
  · simp [file_opened, h]
  · simp [analyze_file_content, h]
  · intro fs hpy
    simp [all_python_content, hpy, analyze_file_content, h, FileRecord.contentField]

/-- Witness for the amended C6 at the concrete hidden file. -/
theorem C6_hidden_placeholder_witness :
    per_file_analysis_called hidFile = false ∧
    analyze_file_content aiZero hidFile =
      .ok hidFile.baseName "hidden" (toString hidFile.size ++ " bytes")
        "Hidden system file" "" ∧
    all_python_content aiZero [hidFile] = ["Hidden system file"] :=
  ⟨(C6_hidden_placeholder aiZero hidFile (by decide)).1,
   (C6_hidden_placeholder aiZero hidFile (by decide)).2.2.1,
   (C6_hidden_placeholder aiZero hidFile (by decide)).2.2.2 [] (by decide)⟩

/-- **C7.** For a non-hidden file whose read succeeds, the per-file
analysis call of line 131 is made iff the inferred type starts with `text/`
and is exactly `text/x-python` or `text/plain`; a text file of any other
inferred type (e.g. `text/markdown`) is read and previewed but gets an
empty analysis; and a file whose inferred type is not `text/` is never
opened, never analyzed, and carries the fixed binary/image placeholder. -/
theorem C7_per_file_analysis_gate (ai : String → String) (f : ExtractedFile)
    (hhid : pyStartsWith f.baseName "._" = false) :
    ((∃ c, f.readResult = Except.ok c) →
      (per_file_analysis_called f = true ↔
        (pyStartsWith (f.mimeGuess.getD "unknown") "text/" = true ∧
         (f.mimeGuess.getD "unknown" = "text/x-python" ∨
          f.mimeGuess.getD "unknown" = "text/plain")))) ∧
    (∀ c, f.readResult = Except.ok c →
      pyStartsWith (f.mimeGuess.getD "unknown") "text/" = true →
      f.mimeGuess.getD "unknown" ≠ "text/x-python" →
      f.mimeGuess.getD "unknown" ≠ "text/plain" →
      analyze_file_content ai f =
        .ok f.baseName (f.mimeGuess.getD "unknown") (toString f.size ++ " bytes")
          (preview c) "" ∧
      per_file_analysis_called f = false) ∧
    (pyStartsWith (f.mimeGuess.getD "unknown") "text/" = false →
      file_opened f = false ∧
      per_file_analysis_called f = false ∧
      (analyze_file_content ai f).contentField =
        some (if pyStartsWith (f.mimeGuess.getD "unknown") "image/" = true
              then "Binary image file" else "Binary file")) := by
  refine ⟨?_, ?_, ?_⟩
  · rintro ⟨c, hc⟩
    simp [per_file_analysis_called, hhid, hc, Bool.and_eq_true, beq_iff_eq]
  · intro c hc ht h1 h2
    constructor
    · simp [analyze_file_content, hhid, ht, hc, h1, h2]
    · simp [per_file_analysis_called, h1, h2]
  · intro ht
    refine ⟨?_, ?_, ?_⟩
    · simp [file_opened, ht]
    · simp [per_file_analysis_called, ht]
    · by_cases him : pyStartsWith (f.mimeGuess.getD "unknown") "image/" = true
      · simp [analyze_file_content, hhid, ht, him, FileRecord.contentField]
      · simp [analyze_file_content, hhid, ht, him, FileRecord.contentField]

/-- Witness for C7: the markdown file is read but not analyzed; the image
file is never opened. -/
theorem C7_per_file_analysis_gate_witness :
    per_file_analysis_called mdFile = false ∧ file_opened pngFile = false :=
  ⟨((C7_per_file_analysis_gate aiZero mdFile (by decide)).2.1 "# hi" rfl
      (by decide) (by decide) (by decide)).2,
   ((C7_per_file_analysis_gate aiZero pngFile (by decide)).2.2 (by decide)).1⟩

/-- **C8.** For a non-hidden text file whose read yields content `c`, the
record's stored preview is exactly the first 1000 characters of `c`
followed by the `"..."` marker when `c` is longer than 1000 characters, and
`c` itself otherwise. -/
theorem C8_preview_truncation (ai : String → String) (f : ExtractedFile) (c : String)
    (hhid : pyStartsWith f.baseName "._" = false)
    (ht : pyStartsWith (f.mimeGuess.getD "unknown") "text/" = true)
    (hc : f.readResult = Except.ok c) :
    (pyLen c > 1000 →
      (analyze_file_content ai f).contentField = some (pyTake c 1000 ++ "...")) ∧
    (pyLen c ≤ 1000 →
      (analyze_file_content ai f).contentField = some c) := by
  have hrec : (analyze_file_content ai f).contentField = some (preview c) := by
    simp [analyze_file_content, hhid, ht, hc, FileRecord.contentField]
  constructor
  · intro hl
    rw [hrec]
    simp [preview, hl]
  · intro hl
    have hnl : ¬ pyLen c > 1000 := by omega
    rw [hrec]
    simp [preview, hnl]

/-- Witness for C8 at the 1001-character Python file. -/
theorem C8_preview_truncation_witness :
    (analyze_file_content aiZero longPy).contentField =
      some (pyTake longContent 1000 ++ "...") :=
  (C8_preview_truncation aiZero longPy longContent (by decide) (by decide) rfl).1
    (by decide)

/-- **C1.** The decision rule of lines 195-212: the verdict is valid iff
some file name ends in `.py` and the consolidated analysis (when it ran)
does not contain the reject marker — the accept marker is never consulted;
when the reject marker occurs in the consolidated analysis, the placeholder
message joins the validation messages; and for any archive with no `.py`
file, whatever every analysis call returns, the verdict is invalid with the
no-Python-files message. -/
theorem C1_decision_rule (ai : String → String) (files : List ExtractedFile) :
    ((build_response ai files).isValid = true ↔
      (has_python_files files = true ∧
       ∀ s, ai_analysis_result ai files = some s →
         pyContains s reject_marker = false)) ∧
    (∀ s, ai_analysis_result ai files = some s →
      pyContains s reject_marker = true →
      "Code appears to be a placeholder or test code" ∈ validation_message ai files) ∧
    (has_python_files files = false →
      (build_response ai files).isValid = false ∧
      (build_response ai files).message =
        "Validation failed: No Python files found in the ZIP" ∧
      "No Python files found in the ZIP" ∈ validation_message ai files) := by
  refine ⟨?_, ?_, ?_⟩
  · cases h : has_python_files files with
    | false => simp [build_response, h]
    | true =>
        cases hA : ai_analysis_result ai files with
        | none => simp [build_response, validation_message, h, hA]
        | some s =>
            cases hr : pyContains s reject_marker with
            | false => simp [build_response, validation_message, h, hA, hr]
            | true => simp [build_response, validation_message, h, hA, hr]
  · intro s hA hr
    simp [validation_message, hA, hr]
  · intro h
    have hnil : all_python_content ai files = [] :=
      all_python_content_eq_nil_of_no_py ai files h
    have hA : ai_analysis_result ai files = none := by
      simp [ai_analysis_result, aggregate_prompt, hnil]
    have hmsg : validation_message ai files = ["No Python files found in the ZIP"] := by
      simp [validation_message, h, hA]
    refine ⟨?_, ?_, ?_⟩
    · simp [build_response, h]
    · simp only [build_response, h, hmsg]
      decide
    · simp [hmsg]

/-- Witness for C1: an archive with no `.py` file is rejected with the
no-Python-files message, and a rejecting consolidated analysis puts the
placeholder message into the validation messages. -/
theorem C1_decision_rule_witness :
    (build_response aiZero [mdFile, pngFile]).isValid = false ∧
    (build_response aiZero [mdFile, pngFile]).message =
      "Validation failed: No Python files found in the ZIP" ∧
    "Code appears to be a placeholder or test code" ∈ validation_message aiRej [pyFile] :=
  ⟨((C1_decision_rule aiZero [mdFile, pngFile]).2.2 (by decide)).1,
   ((C1_decision_rule aiZero [mdFile, pngFile]).2.2 (by decide)).2.1,
   (C1_decision_rule aiRej [pyFile]).2.1 "Analysis ❌ REJECT" (by decide) (by decide)⟩

/-- **C2 counterexample.** For a qualifying file of 1001 characters, the
text line 204 hands to the aggregate analysis call is the stored 1000
character preview with the `"..."` marker — not the file's untruncated
content, refuting the claim that truncation applies only to the display
preview. -/
theorem C2_counterexample :
    aggregate_prompt aiZero [longPy] = some (pyTake longContent 1000 ++ "...") ∧
    pyTake longContent 1000 ++ "..." ≠ longContent := by
  decide

/-- **C2 amended.** Only the per-file analysis call of line 131 receives
the file's full untruncated content; the aggregate prompt is the
blank-line-separated concatenation, in traversal order, of the stored
`content` entries of qualifying files' records — i.e. of the previews,
truncated at 1000 characters with the marker where the content was
longer. -/
theorem C2_aggregate_uses_previews (ai : String → String) (files : List ExtractedFile) :
    (all_python_content ai files =
      (files.filter (fun f => pyEndsWith f.baseName ".py")).filterMap
        (fun f => (analyze_file_content ai f).contentField)) ∧
    (∀ f c, pyStartsWith f.baseName "._" = false →
      (f.mimeGuess.getD "unknown" = "text/x-python" ∨
       f.mimeGuess.getD "unknown" = "text/plain") →
      f.readResult = Except.ok c →
      (analyze_file_content ai f).aiField = some (ai c)) ∧
    ((all_python_content ai files).isEmpty = false →
      aggregate_prompt ai files =
        some (String.intercalate "\n\n" (all_python_content ai files))) := by
  refine ⟨?_, ?_, ?_⟩
  · induction files with
    | nil => rfl
    | cons f fs ih =>
        by_cases hpy : pyEndsWith f.baseName ".py" = true
        · cases hcf : (analyze_file_content ai f).contentField with
          | none => simp [all_python_content, hpy, hcf, ih]
          | some c => simp [all_python_content, hpy, hcf, ih]
        · simp [all_python_content, hpy, ih]
  · intro f c hhid hmt hc
    rcases hmt with h | h
    · simp [analyze_file_content, hhid, hc, h, FileRecord.aiField,
        (by decide : pyStartsWith "text/x-python" "text/" = true)]
    · simp [analyze_file_content, hhid, hc, h, FileRecord.aiField,
        (by decide : pyStartsWith "text/plain" "text/" = true)]
  · intro h
    simp [aggregate_prompt, h]

/-- Witness for the amended C2: the per-file call on `train.py` receives
its full content, and the aggregate prompt for the 1001-character file is
the join of the stored previews. -/
theorem C2_aggregate_uses_previews_witness :
    (analyze_file_content aiZero pyFile).aiField = some (aiZero "print(1)") ∧
    aggregate_prompt aiZero [longPy] =
      some (String.intercalate "\n\n" (all_python_content aiZero [longPy])) :=
  ⟨(C2_aggregate_uses_previews aiZero [pyFile]).2.1 pyFile "print(1)"
      (by decide) (Or.inl (by decide)) rfl,
   (C2_aggregate_uses_previews aiZero [longPy]).2.2 (by decide)⟩

/-- **C10.** The qualifying flag is a pure function of file names (`.py`
ending), independent of MIME classification and read success; a hidden
`.py` file contributes the literal placeholder string to the aggregate
content; and an archive whose `.py` files all produced error records (no
`content` key) while having at least one `.py` name yields a valid verdict
with no aggregate call: `isValid = true`, `ai_analysis = none`, success
message. -/
theorem C10_python_flag_by_name (ai : String → String) (files : List ExtractedFile) :
    (has_python_files files = files.any (fun f => pyEndsWith f.baseName ".py")) ∧
    (∀ f fs, pyStartsWith f.baseName "._" = true → pyEndsWith f.baseName ".py" = true →
      all_python_content ai (f :: fs) =
        "Hidden system file" :: all_python_content ai fs) ∧
    (has_python_files files = true →
      (∀ f ∈ files, pyEndsWith f.baseName ".py" = true →
        (analyze_file_content ai f).contentField = none) →
      (build_response ai files).isValid = true ∧
      (build_response ai files).ai_analysis = none ∧
      (build_response ai files).message = "Validation successful") := by
  refine ⟨?_, ?_, ?_⟩
  · induction files with
    | nil => rfl
    | cons f fs ih => simp [has_python_files, ih]
  · intro f fs hhid hpy
    simp [all_python_content, hpy, analyze_file_content, hhid, FileRecord.contentField]
  · intro h herr
    have hnil : all_python_content ai files = [] :=
      all_python_content_eq_nil_of_err ai files herr
    have hA : ai_analysis_result ai files = none := by
      simp [ai_analysis_result, aggregate_prompt, hnil]
    have hmsg : validation_message ai files = [] := by
      simp [validation_message, h, hA]
    exact ⟨by simp [build_response, h, hmsg], by simp [build_response, hA],
      by simp [build_response, h, hmsg]⟩

/-- Witness for C10 at an archive whose only `.py` file is an error
record. -/
theorem C10_python_flag_by_name_witness :
    (build_response aiZero [badPy, mdFile]).isValid = true ∧
    (build_response aiZero [badPy, mdFile]).ai_analysis = none ∧
    (build_response aiZero [badPy, mdFile]).message = "Validation successful" :=
  (C10_python_flag_by_name aiZero [badPy, mdFile]).2.2 (by decide) (by decide)

end ModelValidator
